import Mathlib

/-!
Verification of the CipherLens smart-contract vulnerability detector's
aggregation core against its specification.

The repository ships the React frontend (App.js, ToolResults, RiskBadge,
CodeEditor, Header) together with documentation (README, development guide)
that fixes the tool weights (40/40/20) and the risk-level bands
(80/50/20 %).  The backend aggregation core (analyzer adapters,
orchestrator, aggregator/scorer, report assembler) is not part of the
visible sources; its definitions below are modelled from the specification
of that core.  Frontend behaviour (input guard, confidence rendering,
risk-badge styling) is embedded from the JavaScript sources directly.

Scores, weights and durations are modelled as rationals (the JavaScript /
Python floats of the implementation), which keeps all arithmetic exact and
every definition executable.
-/

namespace CipherLens

/-- Severity of one finding, normalized across tools (spec §3: one of
low, medium, high). -/
inductive Severity where
  | low
  | medium
  | high
deriving DecidableEq, Repr

/-- Modelled from the spec: `Finding` — one reported issue from one tool
(spec §3).  `confidence` is optional; absence is preserved in the report
and treated as 1.0 for scoring. -/
structure Finding where
  ftype : String
  severity : Severity
  confidence : Option ℚ
  description : String
  line_number : Option Nat
deriving DecidableEq, Repr

/-- Spec §3 invariant on a Finding: confidence, if present, lies in [0,1],
and the description is non-empty. -/
def Finding.valid (f : Finding) : Prop :=
  (∀ c ∈ f.confidence, 0 ≤ c ∧ c ≤ 1) ∧ f.description ≠ ""

instance : DecidablePred Finding.valid := fun f => by
  unfold Finding.valid; infer_instance

/-- Modelled from the spec: `ToolResult` — one analyzer's complete output
for one request (spec §3). -/
structure ToolResult where
  tool_name : String
  success : Bool
  findings : List Finding
  execution_time_seconds : ℚ
  error_message : Option String
deriving DecidableEq, Repr

/-- The three analysis tools (static analysis = Slither, symbolic
execution = Mythril, and the ML classifier), per the README and spec §2. -/
inductive Tool where
  | static
  | symbolic
  | ml
deriving DecidableEq, Repr

/-- Modelled from the spec: numeric weight of a severity for per-tool
scoring (spec §4.3 step 1: low = 0.2, medium = 0.5, high = 1.0). -/
def severityWeight : Severity → ℚ
  | Severity.low => 1/5
  | Severity.medium => 1/2
  | Severity.high => 1

/-- Contribution of one finding to its tool's severity score:
`severityWeight(severity) × (confidence ?? 1.0)` (spec §4.3 step 1). -/
def contribution (f : Finding) : ℚ :=
  severityWeight f.severity * f.confidence.getD 1

/-- Modelled from the spec: the running accumulation of the per-tool
severity score — "start at 0; for each finding add
severityWeight(severity) × (confidence ?? 1.0)" (spec §4.3 step 1). -/
def scoreAccum (findings : List Finding) : ℚ :=
  findings.foldl (fun acc f => acc + contribution f) 0

/-- Modelled from the spec: the per-tool severity score — the accumulated
finding contributions capped at 1.0 (spec §4.3 step 1). -/
def perToolScore (findings : List Finding) : ℚ :=
  min 1 (scoreAccum findings)

/-- Modelled from the spec: configured aggregation weights for the three
tools (spec §4.3: static 0.4, symbolic 0.4, ML 0.2, configurable). -/
structure WeightsConfig where
  static : ℚ
  symbolic : ℚ
  ml : ℚ
deriving DecidableEq, Repr

/-- The configured weight of one tool. -/
def WeightsConfig.weight (w : WeightsConfig) : Tool → ℚ
  | Tool.static => w.static
  | Tool.symbolic => w.symbolic
  | Tool.ml => w.ml

/-- The default weights documented in the development guide
(Slither 40 %, Mythril 40 %, ML model 20 %). -/
def defaultWeights : WeightsConfig :=
  { static := 2/5, symbolic := 2/5, ml := 1/5 }

/-- A result set: for each tool, its ToolResult if that tool was
requested, `none` otherwise (spec §4.2: a tool that is not requested is
simply absent from the result map). -/
def ResultSet : Type := Tool → Option ToolResult

/-- Whether a tool is present in the result set and succeeded. -/
def succeededIn (rs : ResultSet) (t : Tool) : Bool :=
  match rs t with
  | some r => r.success
  | none => false

/-- Whether at least one requested tool succeeded. -/
def anySuccess (rs : ResultSet) : Bool :=
  succeededIn rs Tool.static || succeededIn rs Tool.symbolic || succeededIn rs Tool.ml

/-- The per-tool severity score of a tool in the result set (0 when the
tool is absent; only read for successful tools). -/
def toolScore (rs : ResultSet) (t : Tool) : ℚ :=
  match rs t with
  | some r => perToolScore r.findings
  | none => 0

/-- Modelled from the spec: the sum of configured weights of the tools
that succeeded — the renormalization denominator of spec §4.3 step 2. -/
def successWeightSum (w : WeightsConfig) (rs : ResultSet) : ℚ :=
  (if succeededIn rs Tool.static then w.static else 0)
    + (if succeededIn rs Tool.symbolic then w.symbolic else 0)
    + (if succeededIn rs Tool.ml then w.ml else 0)

/-- Modelled from the spec: effective weight of a tool after
renormalizing over the successful tools only (spec §4.3 step 2). -/
def effectiveWeight (w : WeightsConfig) (rs : ResultSet) (t : Tool) : ℚ :=
  w.weight t / successWeightSum w rs

/-- Modelled from the spec: the configured-weighted sum of per-tool
severity scores over the successful tools (numerator of spec §4.3
step 3). -/
def weightedSum (w : WeightsConfig) (rs : ResultSet) : ℚ :=
  (if succeededIn rs Tool.static then w.static * toolScore rs Tool.static else 0)
    + (if succeededIn rs Tool.symbolic then w.symbolic * toolScore rs Tool.symbolic else 0)
    + (if succeededIn rs Tool.ml then w.ml * toolScore rs Tool.ml else 0)

/-- Clamp a rational into [0,1]. -/
def clamp01 (x : ℚ) : ℚ := max 0 (min 1 x)

/-- Modelled from the spec: the unified risk score (spec §4.3 steps 2–3):
the weighted sum over successful tools divided by the successful weight
mass, clamped to [0,1]; 0 when no tool succeeded. -/
def riskScore (w : WeightsConfig) (rs : ResultSet) : ℚ :=
  if anySuccess rs then clamp01 (weightedSum w rs / successWeightSum w rs) else 0

/-- The four ranked risk levels (spec §3, README): total order
Safe < Low < Moderate < High. -/
inductive RiskLevel where
  | safe
  | lowRisk
  | moderateRisk
  | highRisk
deriving DecidableEq, Repr

/-- Modelled from the spec: configurable level thresholds (spec §4.3
step 4; the development guide documents the same 80/50/20 % bands). -/
structure Thresholds where
  high : ℚ
  moderate : ℚ
  low : ℚ
deriving DecidableEq, Repr

/-- The default thresholds from the development guide: High ≥ 80 %,
Moderate 50–79 %, Low 20–49 %, Safe < 20 %. -/
def defaultThresholds : Thresholds := { high := 4/5, moderate := 1/2, low := 1/5 }

/-- Modelled from the spec: the risk level as a pure function of the risk
score and the configured thresholds (spec §4.3 step 4, §3 invariant). -/
def riskLevelOf (th : Thresholds) (s : ℚ) : RiskLevel :=
  if th.high ≤ s then RiskLevel.highRisk
  else if th.moderate ≤ s then RiskLevel.moderateRisk
  else if th.low ≤ s then RiskLevel.lowRisk
  else RiskLevel.safe

/-- Modelled from the spec: the aggregate verdict — either one of the
four ranked levels, or the distinguished Inconclusive outcome when no
requested tool succeeded (spec §4.3 step 2, §7 case 3). -/
inductive Outcome where
  | inconclusive
  | ranked (level : RiskLevel)
deriving DecidableEq, Repr

/-- Modelled from the spec: the aggregator's verdict for a result set:
Inconclusive when zero tools succeeded, otherwise the ranked level of the
risk score (spec §4.3 steps 2 and 4). -/
def aggregateOutcome (w : WeightsConfig) (th : Thresholds) (rs : ResultSet) : Outcome :=
  if anySuccess rs then Outcome.ranked (riskLevelOf th (riskScore w rs))
  else Outcome.inconclusive

/-- The fixed iteration order of the three tools in the report. -/
def allTools : List Tool := [Tool.static, Tool.symbolic, Tool.ml]

/-- Modelled from the spec: the failure reasons surfaced in the report —
for each requested tool that failed, its error message (spec §7: the
report always explains which tools failed and why). -/
def failureReasons (rs : ResultSet) : List (Tool × String) :=
  allTools.filterMap fun t =>
    match rs t with
    | some r => if r.success then none else r.error_message.map fun m => (t, m)
    | none => none

/-- Modelled from the spec: `AnalysisReport` — the unified output of one
request (spec §3, §4.4). -/
structure AnalysisReport where
  contract_name : String
  analysis_id : String
  timestamp : String
  tool_results : ResultSet
  risk_score : ℚ
  outcome : Outcome
  failure_reasons : List (Tool × String)
  total_execution_time_seconds : ℚ

/-- Modelled from the spec: the Report Assembler (spec §4.4) — packages
the ToolResults and the aggregate verdict, stamping the request-unique
`analysis_id` and the timestamp. -/
def assembleReport (w : WeightsConfig) (th : Thresholds) (name id ts : String)
    (rs : ResultSet) (total : ℚ) : AnalysisReport :=
  { contract_name := name
    analysis_id := id
    timestamp := ts
    tool_results := rs
    risk_score := riskScore w rs
    outcome := aggregateOutcome w th rs
    failure_reasons := failureReasons rs
    total_execution_time_seconds := total }

/-- The inbound request shape consumed by the core (spec §6). -/
structure AnalyzeRequest where
  code : String
  contract_name : String
  include_static : Bool
  include_symbolic : Bool
  include_ml : Bool
deriving DecidableEq, Repr

/-- The tools requested by a request's option flags. -/
def requestedTools (req : AnalyzeRequest) : List Tool :=
  (if req.include_static then [Tool.static] else [])
    ++ (if req.include_symbolic then [Tool.symbolic] else [])
    ++ (if req.include_ml then [Tool.ml] else [])

/-- Input errors rejected before dispatch (spec §7 case 1). -/
inductive InputError where
  | emptySource
  | zeroTools
deriving DecidableEq, Repr

/-- Whether a source string is empty or whitespace-only — the condition
`!code.trim()` used by the frontend guard, and the "empty/missing source"
condition of spec §7 case 1. -/
def blankSource (s : String) : Bool := s.data.all Char.isWhitespace

/-- Modelled from the spec: pre-dispatch input validation — empty or
blank source and zero requested tools are rejected synchronously
(spec §4.2, §7 case 1). -/
def validateRequest (req : AnalyzeRequest) : Option InputError :=
  if blankSource req.code then some InputError.emptySource
  else if requestedTools req = [] then some InputError.zeroTools
  else none

/-- Modelled from the spec: the Orchestrator (spec §4.2) — validates the
request, then runs the requested adapters (modelled by a function from
tool and request to that adapter's ToolResult) and returns the result
set; validation failure means no adapter is invoked. -/
def analyze (adapters : Tool → AnalyzeRequest → ToolResult)
    (req : AnalyzeRequest) : Except InputError ResultSet :=
  match validateRequest req with
  | some e => Except.error e
  | none =>
      Except.ok fun t =>
        if t ∈ requestedTools req then some (adapters t req) else none

/-- Modelled from the spec: the adapters actually invoked for a request —
empty when validation rejects the request before dispatch (spec §7
case 1: no partial work performed). -/
def invokedAdapters (req : AnalyzeRequest) : List Tool :=
  match validateRequest req with
  | some _ => []
  | none => requestedTools req

/-- Modelled from the spec: the whole pipeline for one request —
orchestrate, aggregate, assemble (spec §2 data flow). -/
def fullAnalyze (adapters : Tool → AnalyzeRequest → ToolResult)
    (w : WeightsConfig) (th : Thresholds) (req : AnalyzeRequest)
    (id ts : String) (total : ℚ) : Except InputError AnalysisReport :=
  (analyze adapters req).map fun rs =>
    assembleReport w th req.contract_name id ts rs total

/-- Modelled from the spec: the terminal state of one external tool
invocation as observed by its adapter (spec §4.1, §6): clean completion
with parsed findings, non-zero process exit, malformed output, timeout
expiry, or tool not installed.  Each carries the measured elapsed time
(for a timeout, the timeout itself). -/
inductive ExternalOutcome where
  | completed (findings : List Finding) (elapsed : ℚ)
  | nonZeroExit (exitCode : Int) (stderr : String) (elapsed : ℚ)
  | malformedOutput (raw : String) (elapsed : ℚ)
  | timedOut (timeout : ℚ)
  | notInstalled (toolName : String) (elapsed : ℚ)
deriving DecidableEq, Repr

/-- The measured wall-clock duration of an external invocation. -/
def ExternalOutcome.elapsedTime : ExternalOutcome → ℚ
  | ExternalOutcome.completed _ t => t
  | ExternalOutcome.nonZeroExit _ _ t => t
  | ExternalOutcome.malformedOutput _ t => t
  | ExternalOutcome.timedOut tlim => tlim
  | ExternalOutcome.notInstalled _ t => t

/-- Modelled from the spec: the Analyzer Adapter boundary (spec §4.1) —
every terminal state of the external tool is converted into a ToolResult;
failures carry an error message, empty findings, and the measured
execution time. -/
def runAdapter (name : String) (outcome : ExternalOutcome) : ToolResult :=
  match outcome with
  | ExternalOutcome.completed fs t =>
      { tool_name := name, success := true, findings := fs,
        execution_time_seconds := t, error_message := none }
  | ExternalOutcome.nonZeroExit c msg t =>
      { tool_name := name, success := false, findings := [],
        execution_time_seconds := t,
        error_message := some (name ++ " exited with code " ++ toString c ++ ": " ++ msg) }
  | ExternalOutcome.malformedOutput raw t =>
      { tool_name := name, success := false, findings := [],
        execution_time_seconds := t,
        error_message := some (name ++ " produced malformed output: " ++ raw) }
  | ExternalOutcome.timedOut tlim =>
      { tool_name := name, success := false, findings := [],
        execution_time_seconds := tlim,
        error_message := some (name ++ " timed out after " ++ toString tlim ++ "s") }
  | ExternalOutcome.notInstalled tn t =>
      { tool_name := name, success := false, findings := [],
        execution_time_seconds := t,
        error_message := some (tn ++ " is not installed") }

/-- Embedded from `frontend/src/App.js` (handleAnalyze): blank code is
rejected with an error message before the API is called; otherwise the
request is submitted with all three tools enabled. -/
def handleAnalyze (code contractName : String) : Except String AnalyzeRequest :=
  if blankSource code then Except.error "Please enter some Solidity code to analyze"
  else Except.ok
    { code := code, contract_name := contractName,
      include_static := true, include_symbolic := true, include_ml := true }

/-- Badge styling picked by the frontend for a risk-level string. -/
structure BadgeConfig where
  bgColor : String
  textColor : String
  borderColor : String
  iconColor : String
deriving DecidableEq, Repr

/-- Embedded from `frontend/src/components/RiskBadge.js` (getRiskConfig):
the four ranked levels each get their own styling; any other level string
falls through to the gray default branch. -/
def getRiskConfig (level : String) : BadgeConfig :=
  if level = "High Risk" then
    { bgColor := "bg-red-100", textColor := "text-red-800",
      borderColor := "border-red-200", iconColor := "text-red-600" }
  else if level = "Moderate Risk" then
    { bgColor := "bg-orange-100", textColor := "text-orange-800",
      borderColor := "border-orange-200", iconColor := "text-orange-600" }
  else if level = "Low Risk" then
    { bgColor := "bg-yellow-100", textColor := "text-yellow-800",
      borderColor := "border-yellow-200", iconColor := "text-yellow-600" }
  else if level = "Safe" then
    { bgColor := "bg-green-100", textColor := "text-green-800",
      borderColor := "border-green-200", iconColor := "text-green-600" }
  else
    { bgColor := "bg-gray-100", textColor := "text-gray-800",
      borderColor := "border-gray-200", iconColor := "text-gray-600" }

/-- JavaScript truthiness of an optional numeric value: an absent value
is falsy, and the number 0 is falsy too. -/
def jsTruthyNum (c : Option ℚ) : Bool :=
  match c with
  | none => false
  | some x => decide (x ≠ 0)

/-- Embedded from `frontend/src/components/ToolResults.js` (both styling
variants, the finding card): the confidence bar block is guarded by
`vuln.confidence && (...)`, so it renders exactly when the finding's
confidence is truthy. -/
def confidenceBarShown (f : Finding) : Bool :=
  jsTruthyNum f.confidence

/-! ### Sample inputs used by the witness theorems -/

/-- A sample high-severity finding with partial confidence. -/
def sampleHighFinding : Finding :=
  { ftype := "reentrancy", severity := Severity.high, confidence := some (7/10),
    description := "Reentrancy in withdraw()", line_number := some 42 }

/-- A sample low-severity finding with no reported confidence. -/
def sampleLowFinding : Finding :=
  { ftype := "pragma_version", severity := Severity.low, confidence := none,
    description := "Floating pragma", line_number := none }

/-- A sample successful ToolResult with two findings. -/
def sampleSuccess : ToolResult :=
  { tool_name := "slither", success := true,
    findings := [sampleHighFinding, sampleLowFinding],
    execution_time_seconds := 3/2, error_message := none }

/-- A sample successful ToolResult with no findings. -/
def sampleCleanSuccess : ToolResult :=
  { tool_name := "mythril", success := true, findings := [],
    execution_time_seconds := 2, error_message := none }

/-- A sample failed ToolResult (timeout). -/
def sampleFailure : ToolResult :=
  { tool_name := "mythril", success := false, findings := [],
    execution_time_seconds := 1, error_message := some "mythril timed out after 1s" }

/-- A sample successful result from the ML tool alone. -/
def sampleMLSuccess : ToolResult :=
  { tool_name := "ml", success := true, findings := [sampleHighFinding],
    execution_time_seconds := 1, error_message := none }

/-- A result set in which only the ML tool ran and succeeded. -/
def rsMLOnly : ResultSet := fun t =>
  match t with
  | Tool.ml => some sampleMLSuccess
  | Tool.static => none
  | Tool.symbolic => none

/-- A result set in which the static tool succeeded and the other two failed. -/
def rsMixed : ResultSet := fun t =>
  match t with
  | Tool.static => some sampleSuccess
  | Tool.symbolic => some sampleFailure
  | Tool.ml => some sampleFailure

/-- Adapters that always fail with a timeout, for the all-tools-fail witness. -/
def failingAdapters : Tool → AnalyzeRequest → ToolResult := fun t _ =>
  match t with
  | Tool.static => runAdapter "slither" (ExternalOutcome.timedOut 30)
  | Tool.symbolic => runAdapter "mythril" (ExternalOutcome.timedOut 60)
  | Tool.ml => runAdapter "ml" (ExternalOutcome.notInstalled "ml-service" 0)

/-- Stub adapters that always succeed deterministically. -/
def stubAdapters : Tool → AnalyzeRequest → ToolResult := fun t _ =>
  match t with
  | Tool.static => sampleSuccess
  | Tool.symbolic => sampleCleanSuccess
  | Tool.ml => sampleCleanSuccess

/-- A valid finding whose confidence is present but exactly 0. -/
def zeroConfidenceFinding : Finding :=
  { ftype := "reentrancy", severity := Severity.high, confidence := some 0,
    description := "possible reentrancy", line_number := none }

/-- A sample well-formed analysis request with all three tools enabled. -/
def sampleRequest : AnalyzeRequest :=
  { code := "contract C { }", contract_name := "C",
    include_static := true, include_symbolic := true, include_ml := true }

/-- A sample request whose source is blank (whitespace only). -/
def blankRequest : AnalyzeRequest :=
  { code := "   ", contract_name := "C",
    include_static := true, include_symbolic := true, include_ml := true }

/-! ### Helper lemmas -/

/-- Folding the finding contributions from any starting accumulator adds
the sum of the mapped contributions. -/
theorem foldl_contribution_eq (fs : List Finding) (a : ℚ) :
    fs.foldl (fun acc f => acc + contribution f) a = a + (fs.map contribution).sum := by
  induction fs generalizing a with
  | nil => simp
  | cons f fs ih => simp [List.foldl_cons, ih, List.map_cons, List.sum_cons]; ring

/-- The accumulated score is the sum of the finding contributions. -/
theorem scoreAccum_eq_sum (fs : List Finding) :
    scoreAccum fs = (fs.map contribution).sum := by
  unfold scoreAccum; rw [foldl_contribution_eq]; ring

/-- Appending one finding adds its contribution to the accumulated score. -/
theorem scoreAccum_append (fs : List Finding) (f : Finding) :
    scoreAccum (fs ++ [f]) = scoreAccum fs + contribution f := by
  rw [scoreAccum_eq_sum, scoreAccum_eq_sum, List.map_append, List.sum_append]
  simp

/-- Clamping to [0,1] is monotone. -/
theorem clamp01_mono {a b : ℚ} (h : a ≤ b) : clamp01 a ≤ clamp01 b :=
  max_le_max (le_refl 0) (min_le_min (le_refl 1) h)

/-- The result set obtained by appending one extra finding to one tool's
findings (success flags and all other tools unchanged). -/
def withExtraFinding (rs : ResultSet) (t0 : Tool) (f : Finding) : ResultSet :=
  fun t =>
    if t = t0 then (rs t0).map (fun r => { r with findings := r.findings ++ [f] })
    else rs t

/-- Appending a finding to one tool's findings changes no success flag. -/
theorem succeededIn_withExtra (rs : ResultSet) (t0 : Tool) (f : Finding) (t : Tool) :
    succeededIn (withExtraFinding rs t0 f) t = succeededIn rs t := by
  unfold succeededIn withExtraFinding
  by_cases h : t = t0
  · subst h
    cases rs t <;> simp
  · rw [if_neg h]

/-- Appending a finding with nonnegative contribution never lowers the
per-tool severity score. -/
theorem perToolScore_append (fs : List Finding) (f : Finding)
    (hc : 0 ≤ contribution f) : perToolScore fs ≤ perToolScore (fs ++ [f]) := by
  unfold perToolScore
  rw [scoreAccum_append]
  exact min_le_min (le_refl 1) (by linarith)

/-- Appending a finding with nonnegative contribution never lowers any
tool's score in the result set. -/
theorem toolScore_withExtra (rs : ResultSet) (t0 : Tool) (f : Finding)
    (hc : 0 ≤ contribution f) (t : Tool) :
    toolScore rs t ≤ toolScore (withExtraFinding rs t0 f) t := by
  unfold toolScore withExtraFinding
  by_cases h : t = t0
  · subst h
    cases hrs : rs t with
    | none => simp
    | some r =>
        simp only [hrs, Option.map_some]
        exact perToolScore_append r.findings f hc
  · rw [if_neg h]

/-! ### Claims -/

/-- C1: for every successful tool result, the per-tool severity score is
the sum over its findings of severityWeight(severity) × (confidence if
present else 1.0), with weights low = 0.2, medium = 0.5, high = 1.0,
capped at 1.0; and with zero findings the score is 0. -/
theorem C1_per_tool_score (r : ToolResult) (_hs : r.success = true) :
    perToolScore r.findings
        = min 1 ((r.findings.map fun f => severityWeight f.severity * f.confidence.getD 1).sum)
      ∧ severityWeight Severity.low = 1/5
      ∧ severityWeight Severity.medium = 1/2
      ∧ severityWeight Severity.high = 1
      ∧ (r.findings = [] → perToolScore r.findings = 0) := by
  refine ⟨?_, rfl, rfl, rfl, ?_⟩
  · unfold perToolScore
    rw [scoreAccum_eq_sum]
    rfl
  · intro h
    rw [h]
    simp [perToolScore, scoreAccum]

/-- Witness for C1 at the sample two-finding successful result. -/
theorem C1_per_tool_score_witness :
    perToolScore sampleSuccess.findings
        = min 1 ((sampleSuccess.findings.map fun f =>
            severityWeight f.severity * f.confidence.getD 1).sum)
      ∧ severityWeight Severity.low = 1/5
      ∧ severityWeight Severity.medium = 1/2
      ∧ severityWeight Severity.high = 1
      ∧ (sampleSuccess.findings = [] → perToolScore sampleSuccess.findings = 0) :=
  C1_per_tool_score sampleSuccess rfl

/-- C2: with at least one successful tool, the risk score equals the
clamped sum over successful tools of effective weight × per-tool score,
where the effective weight renormalizes the configured weight over the
successful tools only; and with the default 0.4/0.4/0.2 weights and only
the ML tool succeeding, the ML tool's effective weight is 1. -/
theorem C2_weight_renormalization (w : WeightsConfig) (rs : ResultSet)
    (h : anySuccess rs = true) :
    riskScore w rs
        = clamp01
            ((if succeededIn rs Tool.static then
                effectiveWeight w rs Tool.static * toolScore rs Tool.static else 0)
              + (if succeededIn rs Tool.symbolic then
                  effectiveWeight w rs Tool.symbolic * toolScore rs Tool.symbolic else 0)
              + (if succeededIn rs Tool.ml then
                  effectiveWeight w rs Tool.ml * toolScore rs Tool.ml else 0))
      ∧ (succeededIn rs Tool.ml = true → succeededIn rs Tool.static = false →
          succeededIn rs Tool.symbolic = false →
          effectiveWeight defaultWeights rs Tool.ml = 1) := by
  constructor
  · unfold riskScore
    rw [h]
    simp only [if_true]
    congr 1
    unfold weightedSum effectiveWeight WeightsConfig.weight
    split_ifs <;> ring
  · intro h1 h2 h3
    unfold effectiveWeight successWeightSum WeightsConfig.weight defaultWeights
    rw [h1, h2, h3]
    norm_num

/-- Witness for C2 at the ML-only result set with default weights. -/
theorem C2_weight_renormalization_witness :
    (riskScore defaultWeights rsMLOnly
        = clamp01
            ((if succeededIn rsMLOnly Tool.static then
                effectiveWeight defaultWeights rsMLOnly Tool.static * toolScore rsMLOnly Tool.static else 0)
              + (if succeededIn rsMLOnly Tool.symbolic then
                  effectiveWeight defaultWeights rsMLOnly Tool.symbolic * toolScore rsMLOnly Tool.symbolic else 0)
              + (if succeededIn rsMLOnly Tool.ml then
                  effectiveWeight defaultWeights rsMLOnly Tool.ml * toolScore rsMLOnly Tool.ml else 0))
      ∧ (succeededIn rsMLOnly Tool.ml = true → succeededIn rsMLOnly Tool.static = false →
          succeededIn rsMLOnly Tool.symbolic = false →
          effectiveWeight defaultWeights rsMLOnly Tool.ml = 1))
    ∧ effectiveWeight defaultWeights rsMLOnly Tool.ml = 1 := by
  refine ⟨C2_weight_renormalization defaultWeights rsMLOnly rfl, ?_⟩
  exact (C2_weight_renormalization defaultWeights rsMLOnly rfl).2 rfl rfl rfl

/-- C3: the risk level is a pure, deterministic function of the risk
score and the configured thresholds — the assembled verdict of any run
with a successful tool is exactly `riskLevelOf` applied to the risk score
— and with the default thresholds the bands are: score ≥ 0.80 → High
Risk, 0.50 ≤ score < 0.80 → Moderate Risk, 0.20 ≤ score < 0.50 → Low
Risk, score < 0.20 → Safe. -/
theorem C3_risk_level_bands :
    (∀ s : ℚ,
        (riskLevelOf defaultThresholds s = RiskLevel.highRisk ↔ 4/5 ≤ s)
      ∧ (riskLevelOf defaultThresholds s = RiskLevel.moderateRisk ↔ 1/2 ≤ s ∧ s < 4/5)
      ∧ (riskLevelOf defaultThresholds s = RiskLevel.lowRisk ↔ 1/5 ≤ s ∧ s < 1/2)
      ∧ (riskLevelOf defaultThresholds s = RiskLevel.safe ↔ s < 1/5))
    ∧ (∀ (w : WeightsConfig) (th : Thresholds) (rs : ResultSet),
        anySuccess rs = true →
          aggregateOutcome w th rs = Outcome.ranked (riskLevelOf th (riskScore w rs))) := by
  constructor
  · intro s
    unfold riskLevelOf defaultThresholds
    split_ifs with h1 h2 h3 <;>
      refine ⟨⟨?_, ?_⟩, ⟨?_, ?_⟩, ⟨?_, ?_⟩, ⟨?_, ?_⟩⟩ <;>
      intro h <;>
      first
        | rfl
        | (exact h1)
        | (constructor <;> linarith)
        | linarith
        | (exfalso; simp at h)
  · intro w th rs h
    simp [aggregateOutcome, h]

/-- Witness for C3: a score of 0.9 is High Risk, and the ML-only result
set gets a ranked verdict derived from its risk score. -/
theorem C3_risk_level_bands_witness :
    (riskLevelOf defaultThresholds (9/10) = RiskLevel.highRisk ↔ 4/5 ≤ (9/10 : ℚ))
    ∧ aggregateOutcome defaultWeights defaultThresholds rsMLOnly
        = Outcome.ranked (riskLevelOf defaultThresholds (riskScore defaultWeights rsMLOnly)) :=
  ⟨(C3_risk_level_bands.1 (9/10)).1,
   C3_risk_level_bands.2 defaultWeights defaultThresholds rsMLOnly rfl⟩

/-- C4: when every requested tool fails, the request still completes with
a report whose risk score is 0 and whose outcome is the distinguished
Inconclusive verdict (not one of the four ranked levels), listing the
three failure reasons; a genuine all-clean run instead yields a ranked
Safe verdict, and the frontend badge styles Inconclusive and Safe
differently, so the two reports are distinguishable. -/
theorem C4_all_tools_fail (adapters : Tool → AnalyzeRequest → ToolResult)
    (req : AnalyzeRequest) (id ts : String) (total : ℚ)
    (hcode : blankSource req.code = false)
    (hst : req.include_static = true) (hsy : req.include_symbolic = true)
    (hml : req.include_ml = true)
    (hfail : ∀ t, (adapters t req).success = false)
    (herr : ∀ t, ∃ m, (adapters t req).error_message = some m) :
    ∃ report,
      fullAnalyze adapters defaultWeights defaultThresholds req id ts total
          = Except.ok report
      ∧ report.risk_score = 0
      ∧ report.outcome = Outcome.inconclusive
      ∧ (∀ l, report.outcome ≠ Outcome.ranked l)
      ∧ report.failure_reasons.length = 3
      ∧ (∀ rs2 : ResultSet,
            (∀ t, ∃ r, rs2 t = some r ∧ r.success = true ∧ r.findings = []) →
            aggregateOutcome defaultWeights defaultThresholds rs2
              = Outcome.ranked RiskLevel.safe)
      ∧ Outcome.inconclusive ≠ Outcome.ranked RiskLevel.safe
      ∧ getRiskConfig "Inconclusive" ≠ getRiskConfig "Safe" := by
  have hreq : requestedTools req = [Tool.static, Tool.symbolic, Tool.ml] := by
    simp [requestedTools, hst, hsy, hml]
  have hval : validateRequest req = none := by
    unfold validateRequest
    rw [hcode, hreq]
    simp
  have hrsA : ∀ t : Tool,
      (fun t => if t ∈ requestedTools req then some (adapters t req) else none : ResultSet) t
        = some (adapters t req) := by
    intro t
    rw [hreq]
    cases t <;> simp
  have hns : anySuccess (fun t => if t ∈ requestedTools req then some (adapters t req) else none) = false := by
    simp [anySuccess, succeededIn, hrsA, hfail]
  refine ⟨assembleReport defaultWeights defaultThresholds req.contract_name id ts
      (fun t => if t ∈ requestedTools req then some (adapters t req) else none) total,
    ?_, ?_, ?_, ?_, ?_, ?_, ?_, ?_⟩
  · unfold fullAnalyze analyze
    rw [hval]
    rfl
  · simp [assembleReport, riskScore, hns]
  · simp [assembleReport, aggregateOutcome, hns]
  · intro l hl
    simp [assembleReport, aggregateOutcome, hns] at hl
  · obtain ⟨m1, hm1⟩ := herr Tool.static
    obtain ⟨m2, hm2⟩ := herr Tool.symbolic
    obtain ⟨m3, hm3⟩ := herr Tool.ml
    simp [assembleReport, failureReasons, allTools, hrsA, hfail, hm1, hm2, hm3]
  · intro rs2 hss
    obtain ⟨r1, e1, s1, f1⟩ := hss Tool.static
    obtain ⟨r2, e2, s2, f2⟩ := hss Tool.symbolic
    obtain ⟨r3, e3, s3, f3⟩ := hss Tool.ml
    have ha : anySuccess rs2 = true := by
      simp [anySuccess, succeededIn, e1, s1]
    have hws0 : weightedSum defaultWeights rs2 = 0 := by
      simp [weightedSum, toolScore, e1, e2, e3, f1, f2, f3, perToolScore, scoreAccum]
    have hscore : riskScore defaultWeights rs2 = 0 := by
      simp [riskScore, ha, hws0, clamp01]
    simp [aggregateOutcome, ha, hscore, riskLevelOf, defaultThresholds]
    norm_num
  · simp
  · decide

/-- Witness for C4: all three adapters forced to fail on the sample
request. -/
theorem C4_all_tools_fail_witness :
    ∃ report,
      fullAnalyze failingAdapters defaultWeights defaultThresholds sampleRequest "id-w4" "t4" 5
          = Except.ok report
      ∧ report.risk_score = 0
      ∧ report.outcome = Outcome.inconclusive
      ∧ (∀ l, report.outcome ≠ Outcome.ranked l)
      ∧ report.failure_reasons.length = 3
      ∧ (∀ rs2 : ResultSet,
            (∀ t, ∃ r, rs2 t = some r ∧ r.success = true ∧ r.findings = []) →
            aggregateOutcome defaultWeights defaultThresholds rs2
              = Outcome.ranked RiskLevel.safe)
      ∧ Outcome.inconclusive ≠ Outcome.ranked RiskLevel.safe
      ∧ getRiskConfig "Inconclusive" ≠ getRiskConfig "Safe" :=
  C4_all_tools_fail failingAdapters sampleRequest "id-w4" "t4" 5
    (by decide) rfl rfl rfl
    (fun t => by cases t <;> rfl)
    (fun t => by cases t <;> exact ⟨_, rfl⟩)

/-- C5: every terminal state of an external tool invocation is converted
by the adapter into a ToolResult without raising: on failure the result
has an error message and empty findings; execution time is always
populated and nonnegative; and the error message is present iff the run
failed. -/
theorem C5_adapter_boundary (name : String) (outcome : ExternalOutcome)
    (h : 0 ≤ outcome.elapsedTime) :
    ((runAdapter name outcome).success = false →
        (runAdapter name outcome).error_message.isSome = true
        ∧ (runAdapter name outcome).findings = [])
    ∧ 0 ≤ (runAdapter name outcome).execution_time_seconds
    ∧ ((runAdapter name outcome).error_message.isSome = true
        ↔ (runAdapter name outcome).success = false) := by
  cases outcome <;>
    simp [runAdapter, ExternalOutcome.elapsedTime] at h ⊢ <;>
    exact h

/-- Witness for C5 at a concrete timeout outcome. -/
theorem C5_adapter_boundary_witness :
    ((runAdapter "mythril" (ExternalOutcome.timedOut 60)).success = false →
        (runAdapter "mythril" (ExternalOutcome.timedOut 60)).error_message.isSome = true
        ∧ (runAdapter "mythril" (ExternalOutcome.timedOut 60)).findings = [])
    ∧ 0 ≤ (runAdapter "mythril" (ExternalOutcome.timedOut 60)).execution_time_seconds
    ∧ ((runAdapter "mythril" (ExternalOutcome.timedOut 60)).error_message.isSome = true
        ↔ (runAdapter "mythril" (ExternalOutcome.timedOut 60)).success = false) :=
  C5_adapter_boundary "mythril" (ExternalOutcome.timedOut 60) (by norm_num [ExternalOutcome.elapsedTime])

/-- C6: a request with blank/missing source or zero requested tools is
rejected synchronously with an input error before dispatch, no adapter is
invoked, and (in the frontend) blank code short-circuits with an error
message before the API call. -/
theorem C6_input_rejection (adapters : Tool → AnalyzeRequest → ToolResult)
    (req : AnalyzeRequest)
    (h : blankSource req.code = true ∨ requestedTools req = []) :
    (∃ e, analyze adapters req = Except.error e)
    ∧ invokedAdapters req = []
    ∧ (blankSource req.code = true →
        handleAnalyze req.code req.contract_name
          = Except.error "Please enter some Solidity code to analyze") := by
  have hv : ∃ e, validateRequest req = some e := by
    unfold validateRequest
    rcases h with h | h
    · rw [h]
      exact ⟨InputError.emptySource, rfl⟩
    · rw [h]
      split_ifs with hb hc
      · exact ⟨InputError.emptySource, rfl⟩
      · exact ⟨InputError.zeroTools, rfl⟩
      · exact absurd rfl hc
  obtain ⟨e, he⟩ := hv
  refine ⟨⟨e, ?_⟩, ?_, ?_⟩
  · unfold analyze
    rw [he]
  · unfold invokedAdapters
    rw [he]
  · intro hb
    unfold handleAnalyze
    rw [hb]
    simp

/-- Witness for C6 at the whitespace-only request. -/
theorem C6_input_rejection_witness :
    (∃ e, analyze stubAdapters blankRequest = Except.error e)
    ∧ invokedAdapters blankRequest = []
    ∧ (blankSource blankRequest.code = true →
        handleAnalyze blankRequest.code blankRequest.contract_name
          = Except.error "Please enter some Solidity code to analyze") :=
  C6_input_rejection stubAdapters blankRequest (Or.inl (by decide))

/-- C7: two runs over identical source, contract name and options with
the same deterministic adapters produce identical risk score and
verdict, while reports assembled with distinct request identifiers carry
distinct analysis_id values. -/
theorem C7_idempotence (adapters : Tool → AnalyzeRequest → ToolResult)
    (w : WeightsConfig) (th : Thresholds) (req : AnalyzeRequest)
    (id1 id2 ts1 ts2 : String) (tot1 tot2 : ℚ)
    (hid : id1 ≠ id2) :
    (fullAnalyze adapters w th req id1 ts1 tot1).toOption.map (fun rep => rep.risk_score)
        = (fullAnalyze adapters w th req id2 ts2 tot2).toOption.map (fun rep => rep.risk_score)
    ∧ (fullAnalyze adapters w th req id1 ts1 tot1).toOption.map (fun rep => rep.outcome)
        = (fullAnalyze adapters w th req id2 ts2 tot2).toOption.map (fun rep => rep.outcome)
    ∧ (∀ rep1 rep2,
        fullAnalyze adapters w th req id1 ts1 tot1 = Except.ok rep1 →
        fullAnalyze adapters w th req id2 ts2 tot2 = Except.ok rep2 →
        rep1.analysis_id ≠ rep2.analysis_id) := by
  unfold fullAnalyze analyze
  cases hval : validateRequest req with
  | some e =>
      refine ⟨rfl, rfl, ?_⟩
      intro rep1 rep2 h1 h2
      simp [Except.map] at h1
  | none =>
      refine ⟨rfl, rfl, ?_⟩
      intro rep1 rep2 h1 h2
      simp [Except.map] at h1 h2
      rw [← h1, ← h2]
      unfold assembleReport
      simpa using hid

/-- Witness for C7 at the sample request with stub adapters and two
distinct request identifiers. -/
theorem C7_idempotence_witness :
    (fullAnalyze stubAdapters defaultWeights defaultThresholds sampleRequest "id-a" "t1" 2).toOption.map (fun rep => rep.risk_score)
        = (fullAnalyze stubAdapters defaultWeights defaultThresholds sampleRequest "id-b" "t2" 3).toOption.map (fun rep => rep.risk_score)
    ∧ (fullAnalyze stubAdapters defaultWeights defaultThresholds sampleRequest "id-a" "t1" 2).toOption.map (fun rep => rep.outcome)
        = (fullAnalyze stubAdapters defaultWeights defaultThresholds sampleRequest "id-b" "t2" 3).toOption.map (fun rep => rep.outcome)
    ∧ (∀ rep1 rep2,
        fullAnalyze stubAdapters defaultWeights defaultThresholds sampleRequest "id-a" "t1" 2 = Except.ok rep1 →
        fullAnalyze stubAdapters defaultWeights defaultThresholds sampleRequest "id-b" "t2" 3 = Except.ok rep2 →
        rep1.analysis_id ≠ rep2.analysis_id) :=
  C7_idempotence stubAdapters defaultWeights defaultThresholds sampleRequest
    "id-a" "id-b" "t1" "t2" 2 3 (by decide)

/-- C8: with nonnegative configured weights, appending one more
high-severity finding (with nonnegative confidence) to a successful
tool's result set never decreases that tool's per-tool severity score nor
the overall risk score. -/
theorem C8_monotonicity (w : WeightsConfig) (rs : ResultSet) (t0 : Tool)
    (r : ToolResult) (f : Finding)
    (hws : 0 ≤ w.static) (hwy : 0 ≤ w.symbolic) (hwm : 0 ≤ w.ml)
    (_hr : rs t0 = some r) (_hsucc : r.success = true)
    (hsev : f.severity = Severity.high) (hconf : 0 ≤ f.confidence.getD 1) :
    perToolScore r.findings ≤ perToolScore (r.findings ++ [f])
    ∧ riskScore w rs ≤ riskScore w (withExtraFinding rs t0 f) := by
  have hcontrib : 0 ≤ contribution f := by
    unfold contribution
    rw [hsev]
    unfold severityWeight
    linarith
  refine ⟨perToolScore_append r.findings f hcontrib, ?_⟩
  have hany : anySuccess (withExtraFinding rs t0 f) = anySuccess rs := by
    unfold anySuccess
    rw [succeededIn_withExtra, succeededIn_withExtra, succeededIn_withExtra]
  have hW : successWeightSum w (withExtraFinding rs t0 f) = successWeightSum w rs := by
    unfold successWeightSum
    rw [succeededIn_withExtra, succeededIn_withExtra, succeededIn_withExtra]
  have hWnn : 0 ≤ successWeightSum w rs := by
    unfold successWeightSum
    split_ifs <;> linarith
  have h1 := toolScore_withExtra rs t0 f hcontrib Tool.static
  have h2 := toolScore_withExtra rs t0 f hcontrib Tool.symbolic
  have h3 := toolScore_withExtra rs t0 f hcontrib Tool.ml
  have hnum : weightedSum w rs ≤ weightedSum w (withExtraFinding rs t0 f) := by
    unfold weightedSum
    rw [succeededIn_withExtra, succeededIn_withExtra, succeededIn_withExtra]
    refine add_le_add (add_le_add ?_ ?_) ?_
    · split_ifs with hcond
      · exact mul_le_mul_of_nonneg_left h1 hws
      · exact le_refl 0
    · split_ifs with hcond
      · exact mul_le_mul_of_nonneg_left h2 hwy
      · exact le_refl 0
    · split_ifs with hcond
      · exact mul_le_mul_of_nonneg_left h3 hwm
      · exact le_refl 0
  unfold riskScore
  rw [hany, hW]
  split_ifs with h
  · apply clamp01_mono
    rcases eq_or_lt_of_le hWnn with h0 | hpos
    · rw [← h0]
      simp
    · exact (div_le_div_iff_of_pos_right hpos).mpr hnum
  · exact le_refl 0

/-- Witness for C8: appending a full-confidence high finding to the
successful static tool of the mixed result set. -/
theorem C8_monotonicity_witness :
    perToolScore sampleSuccess.findings
        ≤ perToolScore (sampleSuccess.findings ++ [zeroConfidenceFinding])
    ∧ riskScore defaultWeights rsMixed
        ≤ riskScore defaultWeights (withExtraFinding rsMixed Tool.static zeroConfidenceFinding) :=
  C8_monotonicity defaultWeights rsMixed Tool.static sampleSuccess zeroConfidenceFinding
    (by norm_num [defaultWeights]) (by norm_num [defaultWeights]) (by norm_num [defaultWeights])
    rfl rfl rfl (by norm_num [zeroConfidenceFinding])

/-- C10: in the tool-result view, the confidence bar for a finding is
rendered iff the finding's confidence is present and nonzero — the
`vuln.confidence && (...)` truthiness guard conflates confidence 0 with
absent confidence, although the data model admits a valid finding whose
confidence is exactly 0. -/
theorem C10_confidence_truthiness :
    (∀ f : Finding, confidenceBarShown f = true ↔ ∃ x, f.confidence = some x ∧ x ≠ 0)
    ∧ (∃ f : Finding, f.valid ∧ f.confidence = some 0 ∧ confidenceBarShown f = false) := by
  constructor
  · intro f
    unfold confidenceBarShown jsTruthyNum
    cases h : f.confidence with
    | none => simp
    | some x => simp
  · refine ⟨zeroConfidenceFinding, ?_, rfl, rfl⟩
    constructor
    · intro c hc
      simp only [zeroConfidenceFinding, Option.mem_def, Option.some.injEq] at hc
      subst hc
      exact ⟨le_refl 0, by norm_num⟩
    · simp [zeroConfidenceFinding]

end CipherLens
